import Mathlib

/-!
Verification of the `boxfnonce` crate (src/lib.rs, src/macros.rs): a
heap-boxed container `BoxFnOnce<Args, Result>` holding a call-once value,
built per arity 0..10.  Internally the `From` impls wrap the `FnOnce` in
an `FnMut` whose captured state is an `Option` slot; the first call does
`func.take().unwrap()(args)`.  Panics of the wrapped callable (including
the unwrap panic on an empty slot) are modelled with `Except Panic`.
-/

universe u v w

/-- A Rust panic, identified by its message. -/
structure Panic where
  msg : String
deriving DecidableEq

/-- The panic raised by `Option::unwrap` when the option is `None`. -/
def unwrapNonePanic : Panic :=
  ⟨"called Option::unwrap() on a None value"⟩

/-- The type `BoxFnOnce<Args, Result>` of src/lib.rs.  Its single field
`func` is the boxed `FnMut(Args) -> Result` created by the `From` impls;
the `FnMut`'s captured mutable state is exactly the `Option` slot that
holds the original `FnOnce`, so the slot is the box's state.  The wrapped
callable is modelled as `Args → Except Panic Result` so that a panic
raised inside it is visible in the embedding. -/
structure BoxFnOnce (Args : Type u) (Result : Type v) where
  func : Option (Args → Except Panic Result)

/-- One invocation of the inner `FnMut` closure that every `From` impl
builds: `func.take().unwrap()(args)`.  `take` empties the slot and yields
its former contents; `unwrap` panics when the slot was already empty;
otherwise the extracted `FnOnce` is called by value with `args`.  The
result is the call outcome paired with the slot state left behind (always
empty, because `take` runs first). -/
def innerStep {Args : Type u} {Result : Type v} (slot : Option (Args → Except Panic Result))
    (args : Args) :
    Except Panic Result × Option (Args → Except Panic Result) :=
  match slot with
  | some f => (f args, none)
  | none => (Except.error unwrapNonePanic, none)

/-- The method `BoxFnOnce::call_tuple`: invokes the stored `FnMut` once with
the whole argument tuple.  In Rust the receiver is `mut self`, so the box is
consumed by the call; the post-state of the slot is unreachable through the
public interface. -/
def BoxFnOnce.call_tuple {Args : Type u} {Result : Type v} (b : BoxFnOnce Args Result)
    (args : Args) : Except Panic Result :=
  (innerStep b.func args).1

/-- Arity-0 method `call` (the Rust impl for `BoxFnOnce<(), Result>`):
`(*self.func)(())`, consuming the box.  Rust's unit tuple `()` is `Unit`. -/
def BoxFnOnce.call0 {Result : Type v} (b : BoxFnOnce Unit Result) :
    Except Panic Result :=
  (innerStep b.func ()).1

/-- Arity-1 method `call` generated by `build_n_args!`: tuples its one
positional parameter and invokes the stored `FnMut`.  A Rust 1-tuple
`(A1,)` is modelled as `A1` itself. -/
def BoxFnOnce.call1 {A1 : Type u} {Result : Type v} (b : BoxFnOnce A1 Result)
    (a1 : A1) : Except Panic Result :=
  (innerStep b.func a1).1

/-- Arity-2 method `call` generated by `build_n_args!`. -/
def BoxFnOnce.call2 {A1 A2 : Type u} {Result : Type v} (b : BoxFnOnce (A1 × A2) Result)
    (a1 : A1) (a2 : A2) : Except Panic Result :=
  (innerStep b.func (a1, a2)).1

/-- Arity-3 method `call` generated by `build_n_args!`. -/
def BoxFnOnce.call3 {A1 A2 A3 : Type u} {Result : Type v}
    (b : BoxFnOnce (A1 × A2 × A3) Result)
    (a1 : A1) (a2 : A2) (a3 : A3) : Except Panic Result :=
  (innerStep b.func (a1, a2, a3)).1

/-- Arity-4 method `call` generated by `build_n_args!`. -/
def BoxFnOnce.call4 {A1 A2 A3 A4 : Type u} {Result : Type v}
    (b : BoxFnOnce (A1 × A2 × A3 × A4) Result)
    (a1 : A1) (a2 : A2) (a3 : A3) (a4 : A4) : Except Panic Result :=
  (innerStep b.func (a1, a2, a3, a4)).1

/-- Arity-5 method `call` generated by `build_n_args!`. -/
def BoxFnOnce.call5 {A1 A2 A3 A4 A5 : Type u} {Result : Type v}
    (b : BoxFnOnce (A1 × A2 × A3 × A4 × A5) Result)
    (a1 : A1) (a2 : A2) (a3 : A3) (a4 : A4) (a5 : A5) : Except Panic Result :=
  (innerStep b.func (a1, a2, a3, a4, a5)).1

/-- Arity-6 method `call` generated by `build_n_args!`. -/
def BoxFnOnce.call6 {A1 A2 A3 A4 A5 A6 : Type u} {Result : Type v}
    (b : BoxFnOnce (A1 × A2 × A3 × A4 × A5 × A6) Result)
    (a1 : A1) (a2 : A2) (a3 : A3) (a4 : A4) (a5 : A5) (a6 : A6) :
    Except Panic Result :=
  (innerStep b.func (a1, a2, a3, a4, a5, a6)).1

/-- Arity-7 method `call` generated by `build_n_args!`. -/
def BoxFnOnce.call7 {A1 A2 A3 A4 A5 A6 A7 : Type u} {Result : Type v}
    (b : BoxFnOnce (A1 × A2 × A3 × A4 × A5 × A6 × A7) Result)
    (a1 : A1) (a2 : A2) (a3 : A3) (a4 : A4) (a5 : A5) (a6 : A6) (a7 : A7) :
    Except Panic Result :=
  (innerStep b.func (a1, a2, a3, a4, a5, a6, a7)).1

/-- Arity-8 method `call` generated by `build_n_args!`. -/
def BoxFnOnce.call8 {A1 A2 A3 A4 A5 A6 A7 A8 : Type u} {Result : Type v}
    (b : BoxFnOnce (A1 × A2 × A3 × A4 × A5 × A6 × A7 × A8) Result)
    (a1 : A1) (a2 : A2) (a3 : A3) (a4 : A4) (a5 : A5) (a6 : A6) (a7 : A7)
    (a8 : A8) : Except Panic Result :=
  (innerStep b.func (a1, a2, a3, a4, a5, a6, a7, a8)).1

/-- Arity-9 method `call` generated by `build_n_args!`. -/
def BoxFnOnce.call9 {A1 A2 A3 A4 A5 A6 A7 A8 A9 : Type u} {Result : Type v}
    (b : BoxFnOnce (A1 × A2 × A3 × A4 × A5 × A6 × A7 × A8 × A9) Result)
    (a1 : A1) (a2 : A2) (a3 : A3) (a4 : A4) (a5 : A5) (a6 : A6) (a7 : A7)
    (a8 : A8) (a9 : A9) : Except Panic Result :=
  (innerStep b.func (a1, a2, a3, a4, a5, a6, a7, a8, a9)).1

/-- Arity-10 method `call` generated by `build_n_args!`. -/
def BoxFnOnce.call10 {A1 A2 A3 A4 A5 A6 A7 A8 A9 A10 : Type u} {Result : Type v}
    (b : BoxFnOnce (A1 × A2 × A3 × A4 × A5 × A6 × A7 × A8 × A9 × A10) Result)
    (a1 : A1) (a2 : A2) (a3 : A3) (a4 : A4) (a5 : A5) (a6 : A6) (a7 : A7)
    (a8 : A8) (a9 : A9) (a10 : A10) : Except Panic Result :=
  (innerStep b.func (a1, a2, a3, a4, a5, a6, a7, a8, a9, a10)).1

/-- The arity-0 `From` impl (`impl From<F> for BoxFnOnce<(), Result>`):
stores `Some func` in the slot, wrapped in the closure `move |_| {
func.take().unwrap()() }` that ignores the unit argument tuple. -/
def fromFnOnce0 {Result : Type v} (func : Unit → Except Panic Result) :
    BoxFnOnce Unit Result :=
  ⟨some (fun _ => func ())⟩

/-- The arity-1 `From` impl generated by `build_n_args!`: the stored closure
destructures the 1-tuple and forwards the argument positionally. -/
def fromFnOnce1 {A1 : Type u} {Result : Type v} (func : A1 → Except Panic Result) :
    BoxFnOnce A1 Result :=
  ⟨some (fun a1 => func a1)⟩

/-- The arity-2 `From` impl generated by `build_n_args!`: the stored closure
destructures the tuple and forwards the arguments positionally. -/
def fromFnOnce2 {A1 A2 : Type u} {Result : Type v}
    (func : A1 → A2 → Except Panic Result) : BoxFnOnce (A1 × A2) Result :=
  ⟨some (fun (a1, a2) => func a1 a2)⟩

/-- The arity-3 `From` impl generated by `build_n_args!`. -/
def fromFnOnce3 {A1 A2 A3 : Type u} {Result : Type v}
    (func : A1 → A2 → A3 → Except Panic Result) :
    BoxFnOnce (A1 × A2 × A3) Result :=
  ⟨some (fun (a1, a2, a3) => func a1 a2 a3)⟩

/-- The arity-4 `From` impl generated by `build_n_args!`. -/
def fromFnOnce4 {A1 A2 A3 A4 : Type u} {Result : Type v}
    (func : A1 → A2 → A3 → A4 → Except Panic Result) :
    BoxFnOnce (A1 × A2 × A3 × A4) Result :=
  ⟨some (fun (a1, a2, a3, a4) => func a1 a2 a3 a4)⟩

/-- The arity-5 `From` impl generated by `build_n_args!`. -/
def fromFnOnce5 {A1 A2 A3 A4 A5 : Type u} {Result : Type v}
    (func : A1 → A2 → A3 → A4 → A5 → Except Panic Result) :
    BoxFnOnce (A1 × A2 × A3 × A4 × A5) Result :=
  ⟨some (fun (a1, a2, a3, a4, a5) => func a1 a2 a3 a4 a5)⟩

/-- The arity-6 `From` impl generated by `build_n_args!`. -/
def fromFnOnce6 {A1 A2 A3 A4 A5 A6 : Type u} {Result : Type v}
    (func : A1 → A2 → A3 → A4 → A5 → A6 → Except Panic Result) :
    BoxFnOnce (A1 × A2 × A3 × A4 × A5 × A6) Result :=
  ⟨some (fun (a1, a2, a3, a4, a5, a6) => func a1 a2 a3 a4 a5 a6)⟩

/-- The arity-7 `From` impl generated by `build_n_args!`. -/
def fromFnOnce7 {A1 A2 A3 A4 A5 A6 A7 : Type u} {Result : Type v}
    (func : A1 → A2 → A3 → A4 → A5 → A6 → A7 → Except Panic Result) :
    BoxFnOnce (A1 × A2 × A3 × A4 × A5 × A6 × A7) Result :=
  ⟨some (fun (a1, a2, a3, a4, a5, a6, a7) => func a1 a2 a3 a4 a5 a6 a7)⟩

/-- The arity-8 `From` impl generated by `build_n_args!`. -/
def fromFnOnce8 {A1 A2 A3 A4 A5 A6 A7 A8 : Type u} {Result : Type v}
    (func : A1 → A2 → A3 → A4 → A5 → A6 → A7 → A8 → Except Panic Result) :
    BoxFnOnce (A1 × A2 × A3 × A4 × A5 × A6 × A7 × A8) Result :=
  ⟨some (fun (a1, a2, a3, a4, a5, a6, a7, a8) => func a1 a2 a3 a4 a5 a6 a7 a8)⟩

/-- The arity-9 `From` impl generated by `build_n_args!`. -/
def fromFnOnce9 {A1 A2 A3 A4 A5 A6 A7 A8 A9 : Type u} {Result : Type v}
    (func : A1 → A2 → A3 → A4 → A5 → A6 → A7 → A8 → A9 →
      Except Panic Result) :
    BoxFnOnce (A1 × A2 × A3 × A4 × A5 × A6 × A7 × A8 × A9) Result :=
  ⟨some (fun (a1, a2, a3, a4, a5, a6, a7, a8, a9) =>
    func a1 a2 a3 a4 a5 a6 a7 a8 a9)⟩

/-- The arity-10 `From` impl generated by `build_n_args!`. -/
def fromFnOnce10 {A1 A2 A3 A4 A5 A6 A7 A8 A9 A10 : Type u} {Result : Type v}
    (func : A1 → A2 → A3 → A4 → A5 → A6 → A7 → A8 → A9 → A10 →
      Except Panic Result) :
    BoxFnOnce (A1 × A2 × A3 × A4 × A5 × A6 × A7 × A8 × A9 × A10) Result :=
  ⟨some (fun (a1, a2, a3, a4, a5, a6, a7, a8, a9, a10) =>
    func a1 a2 a3 a4 a5 a6 a7 a8 a9 a10)⟩

/-- Rust's `From` trait, so that `BoxFnOnce::new` can be stated with its
`where Self: From<F>` bound. -/
class RustFrom (F : Type u) (S : Type v) where
  fromFn : F → S

/-- Arity-0 `From` instance. -/
instance instFrom0 {Result : Type v} :
    RustFrom (Unit → Except Panic Result) (BoxFnOnce Unit Result) :=
  ⟨fromFnOnce0⟩

/-- Arity-1 `From` instance. -/
instance instFrom1 {A1 : Type u} {Result : Type v} :
    RustFrom (A1 → Except Panic Result) (BoxFnOnce A1 Result) :=
  ⟨fromFnOnce1⟩

/-- Arity-2 `From` instance. -/
instance instFrom2 {A1 A2 : Type u} {Result : Type v} :
    RustFrom (A1 → A2 → Except Panic Result) (BoxFnOnce (A1 × A2) Result) :=
  ⟨fromFnOnce2⟩

/-- Arity-3 `From` instance. -/
instance instFrom3 {A1 A2 A3 : Type u} {Result : Type v} :
    RustFrom (A1 → A2 → A3 → Except Panic Result)
      (BoxFnOnce (A1 × A2 × A3) Result) :=
  ⟨fromFnOnce3⟩

/-- Arity-4 `From` instance. -/
instance instFrom4 {A1 A2 A3 A4 : Type u} {Result : Type v} :
    RustFrom (A1 → A2 → A3 → A4 → Except Panic Result)
      (BoxFnOnce (A1 × A2 × A3 × A4) Result) :=
  ⟨fromFnOnce4⟩

/-- Arity-5 `From` instance. -/
instance instFrom5 {A1 A2 A3 A4 A5 : Type u} {Result : Type v} :
    RustFrom (A1 → A2 → A3 → A4 → A5 → Except Panic Result)
      (BoxFnOnce (A1 × A2 × A3 × A4 × A5) Result) :=
  ⟨fromFnOnce5⟩

/-- Arity-6 `From` instance. -/
instance instFrom6 {A1 A2 A3 A4 A5 A6 : Type u} {Result : Type v} :
    RustFrom (A1 → A2 → A3 → A4 → A5 → A6 → Except Panic Result)
      (BoxFnOnce (A1 × A2 × A3 × A4 × A5 × A6) Result) :=
  ⟨fromFnOnce6⟩

/-- Arity-7 `From` instance. -/
instance instFrom7 {A1 A2 A3 A4 A5 A6 A7 : Type u} {Result : Type v} :
    RustFrom (A1 → A2 → A3 → A4 → A5 → A6 → A7 → Except Panic Result)
      (BoxFnOnce (A1 × A2 × A3 × A4 × A5 × A6 × A7) Result) :=
  ⟨fromFnOnce7⟩

/-- Arity-8 `From` instance. -/
instance instFrom8 {A1 A2 A3 A4 A5 A6 A7 A8 : Type u} {Result : Type v} :
    RustFrom (A1 → A2 → A3 → A4 → A5 → A6 → A7 → A8 → Except Panic Result)
      (BoxFnOnce (A1 × A2 × A3 × A4 × A5 × A6 × A7 × A8) Result) :=
  ⟨fromFnOnce8⟩

/-- Arity-9 `From` instance. -/
instance instFrom9 {A1 A2 A3 A4 A5 A6 A7 A8 A9 : Type u} {Result : Type v} :
    RustFrom (A1 → A2 → A3 → A4 → A5 → A6 → A7 → A8 → A9 →
        Except Panic Result)
      (BoxFnOnce (A1 × A2 × A3 × A4 × A5 × A6 × A7 × A8 × A9) Result) :=
  ⟨fromFnOnce9⟩

/-- Arity-10 `From` instance. -/
instance instFrom10 {A1 A2 A3 A4 A5 A6 A7 A8 A9 A10 : Type u} {Result : Type v} :
    RustFrom (A1 → A2 → A3 → A4 → A5 → A6 → A7 → A8 → A9 → A10 →
        Except Panic Result)
      (BoxFnOnce (A1 × A2 × A3 × A4 × A5 × A6 × A7 × A8 × A9 × A10) Result) :=
  ⟨fromFnOnce10⟩

/-- The method `BoxFnOnce::new`, an alias for `BoxFnOnce::from`: its body is
`Self::from(func)` under the bound `Self: From<F>`. -/
def BoxFnOnce.new {F : Type w} {Args : Type u} {Result : Type v}
    [RustFrom F (BoxFnOnce Args Result)] (func : F) : BoxFnOnce Args Result :=
  RustFrom.fromFn func

/-- Ownership states of one box instance, as the receiver types of the
public interface in src/lib.rs enforce them: `call` and `call_tuple` both
take `mut self` by value, so after a box is constructed it is either still
owned (`constructed`, carrying the box), consumed by its single call
(`called`, carrying the call outcome), or consumed by going out of scope
without ever being called (`droppedUnused`). -/
inductive LifeState (Args : Type u) (Result : Type v) where
  | constructed : BoxFnOnce Args Result → LifeState Args Result
  | called : Except Panic Result → LifeState Args Result
  | droppedUnused : LifeState Args Result

/-- The transitions the public interface offers on one box instance.
Invoking `call_tuple` (or any per-arity `call`, which forwards to the same
inner mechanism with the tupled arguments) requires owning the box and
consumes it, yielding the call outcome; letting the box go out of scope
uncalled also consumes it.  No operation takes a box in any other state,
because consumed boxes no longer exist for the caller. -/
inductive LifeStep {Args : Type u} {Result : Type v} :
    LifeState Args Result → LifeState Args Result → Prop where
  | callTuple : ∀ (b : BoxFnOnce Args Result) (args : Args),
      LifeStep (LifeState.constructed b) (LifeState.called (b.call_tuple args))
  | dropUnused : ∀ (b : BoxFnOnce Args Result),
      LifeStep (LifeState.constructed b) LifeState.droppedUnused

/-- Modelled from the spec: the thread-transferability capability (Rust's
`Send` bound) that `SendBoxFnOnce`'s construction entry points additionally
require of the supplied callable and its captures.  It is a compile-time
marker with no runtime content and no value-level data in this embedding,
so it is a proposition attached to the callable value. -/
def Sendable {F : Type w} (_func : F) : Prop :=
  True

/-- Modelled from the spec: the type `SendBoxFnOnce<Args, Result>` (its
defining file is not under src/; only the generative macro in src/macros.rs
that also builds its impls is).  Per the spec it is the same container as
`BoxFnOnce` — an erased handle whose state is the `Option` slot — and is
structurally identical and independently constructed. -/
structure SendBoxFnOnce (Args : Type u) (Result : Type v) where
  func : Option (Args → Except Panic Result)

/-- Modelled from the spec: `SendBoxFnOnce::call_tuple`, identical in
behavior to `BoxFnOnce::call_tuple` (the calling protocol is unchanged). -/
def SendBoxFnOnce.call_tuple {Args : Type u} {Result : Type v}
    (b : SendBoxFnOnce Args Result) (args : Args) : Except Panic Result :=
  (innerStep b.func args).1

/-- Modelled from the spec: arity-0 `call` of `SendBoxFnOnce`. -/
def SendBoxFnOnce.call0 {Result : Type v} (b : SendBoxFnOnce Unit Result) :
    Except Panic Result :=
  (innerStep b.func ()).1

/-- Modelled from the spec: arity-1 `call` of `SendBoxFnOnce`. -/
def SendBoxFnOnce.call1 {A1 : Type u} {Result : Type v}
    (b : SendBoxFnOnce A1 Result) (a1 : A1) : Except Panic Result :=
  (innerStep b.func a1).1

/-- Modelled from the spec: arity-2 `call` of `SendBoxFnOnce`. -/
def SendBoxFnOnce.call2 {A1 A2 : Type u} {Result : Type v}
    (b : SendBoxFnOnce (A1 × A2) Result) (a1 : A1) (a2 : A2) :
    Except Panic Result :=
  (innerStep b.func (a1, a2)).1

/-- Modelled from the spec: arity-3 `call` of `SendBoxFnOnce`. -/
def SendBoxFnOnce.call3 {A1 A2 A3 : Type u} {Result : Type v}
    (b : SendBoxFnOnce (A1 × A2 × A3) Result) (a1 : A1) (a2 : A2) (a3 : A3) :
    Except Panic Result :=
  (innerStep b.func (a1, a2, a3)).1

/-- Modelled from the spec: arity-4 `call` of `SendBoxFnOnce`. -/
def SendBoxFnOnce.call4 {A1 A2 A3 A4 : Type u} {Result : Type v}
    (b : SendBoxFnOnce (A1 × A2 × A3 × A4) Result)
    (a1 : A1) (a2 : A2) (a3 : A3) (a4 : A4) : Except Panic Result :=
  (innerStep b.func (a1, a2, a3, a4)).1

/-- Modelled from the spec: arity-5 `call` of `SendBoxFnOnce`. -/
def SendBoxFnOnce.call5 {A1 A2 A3 A4 A5 : Type u} {Result : Type v}
    (b : SendBoxFnOnce (A1 × A2 × A3 × A4 × A5) Result)
    (a1 : A1) (a2 : A2) (a3 : A3) (a4 : A4) (a5 : A5) : Except Panic Result :=
  (innerStep b.func (a1, a2, a3, a4, a5)).1

/-- Modelled from the spec: arity-6 `call` of `SendBoxFnOnce`. -/
def SendBoxFnOnce.call6 {A1 A2 A3 A4 A5 A6 : Type u} {Result : Type v}
    (b : SendBoxFnOnce (A1 × A2 × A3 × A4 × A5 × A6) Result)
    (a1 : A1) (a2 : A2) (a3 : A3) (a4 : A4) (a5 : A5) (a6 : A6) :
    Except Panic Result :=
  (innerStep b.func (a1, a2, a3, a4, a5, a6)).1

/-- Modelled from the spec: arity-7 `call` of `SendBoxFnOnce`. -/
def SendBoxFnOnce.call7 {A1 A2 A3 A4 A5 A6 A7 : Type u} {Result : Type v}
    (b : SendBoxFnOnce (A1 × A2 × A3 × A4 × A5 × A6 × A7) Result)
    (a1 : A1) (a2 : A2) (a3 : A3) (a4 : A4) (a5 : A5) (a6 : A6) (a7 : A7) :
    Except Panic Result :=
  (innerStep b.func (a1, a2, a3, a4, a5, a6, a7)).1

/-- Modelled from the spec: arity-8 `call` of `SendBoxFnOnce`. -/
def SendBoxFnOnce.call8 {A1 A2 A3 A4 A5 A6 A7 A8 : Type u} {Result : Type v}
    (b : SendBoxFnOnce (A1 × A2 × A3 × A4 × A5 × A6 × A7 × A8) Result)
    (a1 : A1) (a2 : A2) (a3 : A3) (a4 : A4) (a5 : A5) (a6 : A6) (a7 : A7)
    (a8 : A8) : Except Panic Result :=
  (innerStep b.func (a1, a2, a3, a4, a5, a6, a7, a8)).1

/-- Modelled from the spec: arity-9 `call` of `SendBoxFnOnce`. -/
def SendBoxFnOnce.call9 {A1 A2 A3 A4 A5 A6 A7 A8 A9 : Type u} {Result : Type v}
    (b : SendBoxFnOnce (A1 × A2 × A3 × A4 × A5 × A6 × A7 × A8 × A9) Result)
    (a1 : A1) (a2 : A2) (a3 : A3) (a4 : A4) (a5 : A5) (a6 : A6) (a7 : A7)
    (a8 : A8) (a9 : A9) : Except Panic Result :=
  (innerStep b.func (a1, a2, a3, a4, a5, a6, a7, a8, a9)).1

/-- Modelled from the spec: arity-10 `call` of `SendBoxFnOnce`. -/
def SendBoxFnOnce.call10 {A1 A2 A3 A4 A5 A6 A7 A8 A9 A10 : Type u}
    {Result : Type v}
    (b : SendBoxFnOnce (A1 × A2 × A3 × A4 × A5 × A6 × A7 × A8 × A9 × A10)
      Result)
    (a1 : A1) (a2 : A2) (a3 : A3) (a4 : A4) (a5 : A5) (a6 : A6) (a7 : A7)
    (a8 : A8) (a9 : A9) (a10 : A10) : Except Panic Result :=
  (innerStep b.func (a1, a2, a3, a4, a5, a6, a7, a8, a9, a10)).1

/-- Modelled from the spec: arity-0 construction of `SendBoxFnOnce`, which
additionally requires the callable to be thread-transferable. -/
def sendFromFnOnce0 {Result : Type v} (func : Unit → Except Panic Result)
    (_h : Sendable func) : SendBoxFnOnce Unit Result :=
  ⟨some (fun _ => func ())⟩

/-- Modelled from the spec: arity-1 construction of `SendBoxFnOnce`. -/
def sendFromFnOnce1 {A1 : Type u} {Result : Type v}
    (func : A1 → Except Panic Result) (_h : Sendable func) :
    SendBoxFnOnce A1 Result :=
  ⟨some (fun a1 => func a1)⟩

/-- Modelled from the spec: arity-2 construction of `SendBoxFnOnce`. -/
def sendFromFnOnce2 {A1 A2 : Type u} {Result : Type v}
    (func : A1 → A2 → Except Panic Result) (_h : Sendable func) :
    SendBoxFnOnce (A1 × A2) Result :=
  ⟨some (fun (a1, a2) => func a1 a2)⟩

/-- Modelled from the spec: arity-3 construction of `SendBoxFnOnce`. -/
def sendFromFnOnce3 {A1 A2 A3 : Type u} {Result : Type v}
    (func : A1 → A2 → A3 → Except Panic Result) (_h : Sendable func) :
    SendBoxFnOnce (A1 × A2 × A3) Result :=
  ⟨some (fun (a1, a2, a3) => func a1 a2 a3)⟩

/-- Modelled from the spec: arity-4 construction of `SendBoxFnOnce`. -/
def sendFromFnOnce4 {A1 A2 A3 A4 : Type u} {Result : Type v}
    (func : A1 → A2 → A3 → A4 → Except Panic Result) (_h : Sendable func) :
    SendBoxFnOnce (A1 × A2 × A3 × A4) Result :=
  ⟨some (fun (a1, a2, a3, a4) => func a1 a2 a3 a4)⟩

/-- Modelled from the spec: arity-5 construction of `SendBoxFnOnce`. -/
def sendFromFnOnce5 {A1 A2 A3 A4 A5 : Type u} {Result : Type v}
    (func : A1 → A2 → A3 → A4 → A5 → Except Panic Result)
    (_h : Sendable func) : SendBoxFnOnce (A1 × A2 × A3 × A4 × A5) Result :=
  ⟨some (fun (a1, a2, a3, a4, a5) => func a1 a2 a3 a4 a5)⟩

/-- Modelled from the spec: arity-6 construction of `SendBoxFnOnce`. -/
def sendFromFnOnce6 {A1 A2 A3 A4 A5 A6 : Type u} {Result : Type v}
    (func : A1 → A2 → A3 → A4 → A5 → A6 → Except Panic Result)
    (_h : Sendable func) :
    SendBoxFnOnce (A1 × A2 × A3 × A4 × A5 × A6) Result :=
  ⟨some (fun (a1, a2, a3, a4, a5, a6) => func a1 a2 a3 a4 a5 a6)⟩

/-- Modelled from the spec: arity-7 construction of `SendBoxFnOnce`. -/
def sendFromFnOnce7 {A1 A2 A3 A4 A5 A6 A7 : Type u} {Result : Type v}
    (func : A1 → A2 → A3 → A4 → A5 → A6 → A7 → Except Panic Result)
    (_h : Sendable func) :
    SendBoxFnOnce (A1 × A2 × A3 × A4 × A5 × A6 × A7) Result :=
  ⟨some (fun (a1, a2, a3, a4, a5, a6, a7) => func a1 a2 a3 a4 a5 a6 a7)⟩

/-- Modelled from the spec: arity-8 construction of `SendBoxFnOnce`. -/
def sendFromFnOnce8 {A1 A2 A3 A4 A5 A6 A7 A8 : Type u} {Result : Type v}
    (func : A1 → A2 → A3 → A4 → A5 → A6 → A7 → A8 → Except Panic Result)
    (_h : Sendable func) :
    SendBoxFnOnce (A1 × A2 × A3 × A4 × A5 × A6 × A7 × A8) Result :=
  ⟨some (fun (a1, a2, a3, a4, a5, a6, a7, a8) =>
    func a1 a2 a3 a4 a5 a6 a7 a8)⟩

/-- Modelled from the spec: arity-9 construction of `SendBoxFnOnce`. -/
def sendFromFnOnce9 {A1 A2 A3 A4 A5 A6 A7 A8 A9 : Type u} {Result : Type v}
    (func : A1 → A2 → A3 → A4 → A5 → A6 → A7 → A8 → A9 →
      Except Panic Result)
    (_h : Sendable func) :
    SendBoxFnOnce (A1 × A2 × A3 × A4 × A5 × A6 × A7 × A8 × A9) Result :=
  ⟨some (fun (a1, a2, a3, a4, a5, a6, a7, a8, a9) =>
    func a1 a2 a3 a4 a5 a6 a7 a8 a9)⟩

/-- Modelled from the spec: arity-10 construction of `SendBoxFnOnce`. -/
def sendFromFnOnce10 {A1 A2 A3 A4 A5 A6 A7 A8 A9 A10 : Type u}
    {Result : Type v}
    (func : A1 → A2 → A3 → A4 → A5 → A6 → A7 → A8 → A9 → A10 →
      Except Panic Result)
    (_h : Sendable func) :
    SendBoxFnOnce (A1 × A2 × A3 × A4 × A5 × A6 × A7 × A8 × A9 × A10) Result :=
  ⟨some (fun (a1, a2, a3, a4, a5, a6, a7, a8, a9, a10) =>
    func a1 a2 a3 a4 a5 a6 a7 a8 a9 a10)⟩

/-- A concrete arity-0 callable used in witness statements. -/
def demoF : Unit → Except Panic Nat :=
  fun _ => Except.ok 7

/-- The box built from `demoF`. -/
def demoBox : BoxFnOnce Unit Nat :=
  fromFnOnce0 demoF

/-- A concrete arity-0 callable that always panics with a marker message,
like the diverging closure in the crate's `test_arg4_diverging` test. -/
def divergingF : Unit → Except Panic Nat :=
  fun _ => Except.error ⟨"inner diverging"⟩

/-- C1: for every supported arity N (0..10), every result type, every
once-callable value of arity N, and every tuple of N matching arguments,
building a `BoxFnOnce` through that arity's `From` impl and invoking its
`call` operation with those arguments returns exactly the value the
original callable returns on them. -/
theorem from_then_call_returns_original_result :
    (∀ (Result : Type v) (f : Unit → Except Panic Result),
      (fromFnOnce0 f).call0 = f ()) ∧
    (∀ (A1 : Type u) (Result : Type v) (f : A1 → Except Panic Result)
      (a1 : A1),
      (fromFnOnce1 f).call1 a1 = f a1) ∧
    (∀ (A1 A2 : Type u) (Result : Type v)
      (f : A1 → A2 → Except Panic Result) (a1 : A1) (a2 : A2),
      (fromFnOnce2 f).call2 a1 a2 = f a1 a2) ∧
    (∀ (A1 A2 A3 : Type u) (Result : Type v)
      (f : A1 → A2 → A3 → Except Panic Result) (a1 : A1) (a2 : A2) (a3 : A3),
      (fromFnOnce3 f).call3 a1 a2 a3 = f a1 a2 a3) ∧
    (∀ (A1 A2 A3 A4 : Type u) (Result : Type v)
      (f : A1 → A2 → A3 → A4 → Except Panic Result)
      (a1 : A1) (a2 : A2) (a3 : A3) (a4 : A4),
      (fromFnOnce4 f).call4 a1 a2 a3 a4 = f a1 a2 a3 a4) ∧
    (∀ (A1 A2 A3 A4 A5 : Type u) (Result : Type v)
      (f : A1 → A2 → A3 → A4 → A5 → Except Panic Result)
      (a1 : A1) (a2 : A2) (a3 : A3) (a4 : A4) (a5 : A5),
      (fromFnOnce5 f).call5 a1 a2 a3 a4 a5 = f a1 a2 a3 a4 a5) ∧
    (∀ (A1 A2 A3 A4 A5 A6 : Type u) (Result : Type v)
      (f : A1 → A2 → A3 → A4 → A5 → A6 → Except Panic Result)
      (a1 : A1) (a2 : A2) (a3 : A3) (a4 : A4) (a5 : A5) (a6 : A6),
      (fromFnOnce6 f).call6 a1 a2 a3 a4 a5 a6 = f a1 a2 a3 a4 a5 a6) ∧
    (∀ (A1 A2 A3 A4 A5 A6 A7 : Type u) (Result : Type v)
      (f : A1 → A2 → A3 → A4 → A5 → A6 → A7 → Except Panic Result)
      (a1 : A1) (a2 : A2) (a3 : A3) (a4 : A4) (a5 : A5) (a6 : A6) (a7 : A7),
      (fromFnOnce7 f).call7 a1 a2 a3 a4 a5 a6 a7 = f a1 a2 a3 a4 a5 a6 a7) ∧
    (∀ (A1 A2 A3 A4 A5 A6 A7 A8 : Type u) (Result : Type v)
      (f : A1 → A2 → A3 → A4 → A5 → A6 → A7 → A8 → Except Panic Result)
      (a1 : A1) (a2 : A2) (a3 : A3) (a4 : A4) (a5 : A5) (a6 : A6) (a7 : A7)
      (a8 : A8),
      (fromFnOnce8 f).call8 a1 a2 a3 a4 a5 a6 a7 a8
        = f a1 a2 a3 a4 a5 a6 a7 a8) ∧
    (∀ (A1 A2 A3 A4 A5 A6 A7 A8 A9 : Type u) (Result : Type v)
      (f : A1 → A2 → A3 → A4 → A5 → A6 → A7 → A8 → A9 →
        Except Panic Result)
      (a1 : A1) (a2 : A2) (a3 : A3) (a4 : A4) (a5 : A5) (a6 : A6) (a7 : A7)
      (a8 : A8) (a9 : A9),
      (fromFnOnce9 f).call9 a1 a2 a3 a4 a5 a6 a7 a8 a9
        = f a1 a2 a3 a4 a5 a6 a7 a8 a9) ∧
    (∀ (A1 A2 A3 A4 A5 A6 A7 A8 A9 A10 : Type u) (Result : Type v)
      (f : A1 → A2 → A3 → A4 → A5 → A6 → A7 → A8 → A9 → A10 →
        Except Panic Result)
      (a1 : A1) (a2 : A2) (a3 : A3) (a4 : A4) (a5 : A5) (a6 : A6) (a7 : A7)
      (a8 : A8) (a9 : A9) (a10 : A10),
      (fromFnOnce10 f).call10 a1 a2 a3 a4 a5 a6 a7 a8 a9 a10
        = f a1 a2 a3 a4 a5 a6 a7 a8 a9 a10) := by
  refine ⟨?_, ?_, ?_, ?_, ?_, ?_, ?_, ?_, ?_, ?_, ?_⟩ <;> intros <;> rfl

/-- C2: for every arity N (1..10) the untupled `call` operation agrees with
`call_tuple` on the tupled arguments — `call` is exactly tupling the N
positional parameters and forwarding to the shared once-call mechanism —
and for arity 0 `call` agrees with `call_tuple` on the unit tuple. -/
theorem call_is_tupling_then_call_tuple :
    (∀ (Result : Type v) (b : BoxFnOnce Unit Result),
      b.call0 = b.call_tuple ()) ∧
    (∀ (A1 : Type u) (Result : Type v) (b : BoxFnOnce A1 Result) (a1 : A1),
      b.call1 a1 = b.call_tuple a1) ∧
    (∀ (A1 A2 : Type u) (Result : Type v) (b : BoxFnOnce (A1 × A2) Result)
      (a1 : A1) (a2 : A2),
      b.call2 a1 a2 = b.call_tuple (a1, a2)) ∧
    (∀ (A1 A2 A3 : Type u) (Result : Type v)
      (b : BoxFnOnce (A1 × A2 × A3) Result) (a1 : A1) (a2 : A2) (a3 : A3),
      b.call3 a1 a2 a3 = b.call_tuple (a1, a2, a3)) ∧
    (∀ (A1 A2 A3 A4 : Type u) (Result : Type v)
      (b : BoxFnOnce (A1 × A2 × A3 × A4) Result)
      (a1 : A1) (a2 : A2) (a3 : A3) (a4 : A4),
      b.call4 a1 a2 a3 a4 = b.call_tuple (a1, a2, a3, a4)) ∧
    (∀ (A1 A2 A3 A4 A5 : Type u) (Result : Type v)
      (b : BoxFnOnce (A1 × A2 × A3 × A4 × A5) Result)
      (a1 : A1) (a2 : A2) (a3 : A3) (a4 : A4) (a5 : A5),
      b.call5 a1 a2 a3 a4 a5 = b.call_tuple (a1, a2, a3, a4, a5)) ∧
    (∀ (A1 A2 A3 A4 A5 A6 : Type u) (Result : Type v)
      (b : BoxFnOnce (A1 × A2 × A3 × A4 × A5 × A6) Result)
      (a1 : A1) (a2 : A2) (a3 : A3) (a4 : A4) (a5 : A5) (a6 : A6),
      b.call6 a1 a2 a3 a4 a5 a6 = b.call_tuple (a1, a2, a3, a4, a5, a6)) ∧
    (∀ (A1 A2 A3 A4 A5 A6 A7 : Type u) (Result : Type v)
      (b : BoxFnOnce (A1 × A2 × A3 × A4 × A5 × A6 × A7) Result)
      (a1 : A1) (a2 : A2) (a3 : A3) (a4 : A4) (a5 : A5) (a6 : A6) (a7 : A7),
      b.call7 a1 a2 a3 a4 a5 a6 a7
        = b.call_tuple (a1, a2, a3, a4, a5, a6, a7)) ∧
    (∀ (A1 A2 A3 A4 A5 A6 A7 A8 : Type u) (Result : Type v)
      (b : BoxFnOnce (A1 × A2 × A3 × A4 × A5 × A6 × A7 × A8) Result)
      (a1 : A1) (a2 : A2) (a3 : A3) (a4 : A4) (a5 : A5) (a6 : A6) (a7 : A7)
      (a8 : A8),
      b.call8 a1 a2 a3 a4 a5 a6 a7 a8
        = b.call_tuple (a1, a2, a3, a4, a5, a6, a7, a8)) ∧
    (∀ (A1 A2 A3 A4 A5 A6 A7 A8 A9 : Type u) (Result : Type v)
      (b : BoxFnOnce (A1 × A2 × A3 × A4 × A5 × A6 × A7 × A8 × A9) Result)
      (a1 : A1) (a2 : A2) (a3 : A3) (a4 : A4) (a5 : A5) (a6 : A6) (a7 : A7)
      (a8 : A8) (a9 : A9),
      b.call9 a1 a2 a3 a4 a5 a6 a7 a8 a9
        = b.call_tuple (a1, a2, a3, a4, a5, a6, a7, a8, a9)) ∧
    (∀ (A1 A2 A3 A4 A5 A6 A7 A8 A9 A10 : Type u) (Result : Type v)
      (b : BoxFnOnce (A1 × A2 × A3 × A4 × A5 × A6 × A7 × A8 × A9 × A10)
        Result)
      (a1 : A1) (a2 : A2) (a3 : A3) (a4 : A4) (a5 : A5) (a6 : A6) (a7 : A7)
      (a8 : A8) (a9 : A9) (a10 : A10),
      b.call10 a1 a2 a3 a4 a5 a6 a7 a8 a9 a10
        = b.call_tuple (a1, a2, a3, a4, a5, a6, a7, a8, a9, a10)) := by
  refine ⟨?_, ?_, ?_, ?_, ?_, ?_, ?_, ?_, ?_, ?_, ?_⟩ <;> intros <;> rfl

/-- C3: every box is invoked at most once.  In the ownership state machine
the only transitions offered by the public interface are
`constructed → called` (the consuming call) and
`constructed → droppedUnused` (scope exit without a call); both targets are
terminal, so in particular no transition leaves `called` and a second call
on the same instance is unrepresentable. -/
theorem lifecycle_at_most_one_call :
    ∀ (Args : Type u) (Result : Type v) (s t : LifeState Args Result),
      LifeStep s t →
        (∃ b, s = LifeState.constructed b) ∧
        ((∃ r, t = LifeState.called r) ∨ t = LifeState.droppedUnused) ∧
        (∀ t2, ¬ LifeStep t t2) := by
  intro Args Result s t h
  cases h with
  | callTuple b args =>
      exact ⟨⟨b, rfl⟩, Or.inl ⟨_, rfl⟩, fun t2 h2 => nomatch h2⟩
  | dropUnused b =>
      exact ⟨⟨b, rfl⟩, Or.inr rfl, fun t2 h2 => nomatch h2⟩

/-- Witness for C3: instantiates the lifecycle theorem at the concrete step
in which `demoBox` is called with the unit tuple. -/
theorem lifecycle_at_most_one_call_witness :
    (∃ b, (LifeState.constructed demoBox : LifeState Unit Nat)
        = LifeState.constructed b) ∧
    ((∃ r, (LifeState.called (demoBox.call_tuple ()) : LifeState Unit Nat)
        = LifeState.called r) ∨
      (LifeState.called (demoBox.call_tuple ()) : LifeState Unit Nat)
        = LifeState.droppedUnused) ∧
    (∀ (t2 : LifeState Unit Nat),
      ¬ LifeStep (LifeState.called (demoBox.call_tuple ())) t2) :=
  lifecycle_at_most_one_call Unit Nat _ _ (LifeStep.callTuple demoBox ())

/-- C4: whenever a box's slot still holds a wrapped callable (as it does in
every freshly constructed box — each `From` impl fills the slot), invoking
the inner wrapper takes the `some` branch: the extraction succeeds, the
slot is left empty, and the extracted callable is called with the supplied
arguments; the unwrap-of-`None` branch is not taken.  The remaining
conjuncts check, per arity, that construction initially stores the wrapped
once-callable in the slot. -/
theorem slot_extraction_succeeds_on_first_call :
    (∀ (Args : Type u) (Result : Type v) (b : BoxFnOnce Args Result)
      (g : Args → Except Panic Result) (args : Args),
      b.func = some g → innerStep b.func args = (g args, none)) ∧
    (∀ (Result : Type v) (f : Unit → Except Panic Result),
      (fromFnOnce0 f).func = some (fun _ => f ())) ∧
    (∀ (A1 : Type u) (Result : Type v) (f : A1 → Except Panic Result),
      (fromFnOnce1 f).func = some (fun a1 => f a1)) ∧
    (∀ (A1 A2 : Type u) (Result : Type v)
      (f : A1 → A2 → Except Panic Result),
      (fromFnOnce2 f).func = some (fun (a1, a2) => f a1 a2)) ∧
    (∀ (A1 A2 A3 : Type u) (Result : Type v)
      (f : A1 → A2 → A3 → Except Panic Result),
      (fromFnOnce3 f).func = some (fun (a1, a2, a3) => f a1 a2 a3)) ∧
    (∀ (A1 A2 A3 A4 : Type u) (Result : Type v)
      (f : A1 → A2 → A3 → A4 → Except Panic Result),
      (fromFnOnce4 f).func = some (fun (a1, a2, a3, a4) => f a1 a2 a3 a4)) ∧
    (∀ (A1 A2 A3 A4 A5 : Type u) (Result : Type v)
      (f : A1 → A2 → A3 → A4 → A5 → Except Panic Result),
      (fromFnOnce5 f).func
        = some (fun (a1, a2, a3, a4, a5) => f a1 a2 a3 a4 a5)) ∧
    (∀ (A1 A2 A3 A4 A5 A6 : Type u) (Result : Type v)
      (f : A1 → A2 → A3 → A4 → A5 → A6 → Except Panic Result),
      (fromFnOnce6 f).func
        = some (fun (a1, a2, a3, a4, a5, a6) => f a1 a2 a3 a4 a5 a6)) ∧
    (∀ (A1 A2 A3 A4 A5 A6 A7 : Type u) (Result : Type v)
      (f : A1 → A2 → A3 → A4 → A5 → A6 → A7 → Except Panic Result),
      (fromFnOnce7 f).func
        = some (fun (a1, a2, a3, a4, a5, a6, a7) => f a1 a2 a3 a4 a5 a6 a7)) ∧
    (∀ (A1 A2 A3 A4 A5 A6 A7 A8 : Type u) (Result : Type v)
      (f : A1 → A2 → A3 → A4 → A5 → A6 → A7 → A8 → Except Panic Result),
      (fromFnOnce8 f).func
        = some (fun (a1, a2, a3, a4, a5, a6, a7, a8) =>
          f a1 a2 a3 a4 a5 a6 a7 a8)) ∧
    (∀ (A1 A2 A3 A4 A5 A6 A7 A8 A9 : Type u) (Result : Type v)
      (f : A1 → A2 → A3 → A4 → A5 → A6 → A7 → A8 → A9 →
        Except Panic Result),
      (fromFnOnce9 f).func
        = some (fun (a1, a2, a3, a4, a5, a6, a7, a8, a9) =>
          f a1 a2 a3 a4 a5 a6 a7 a8 a9)) ∧
    (∀ (A1 A2 A3 A4 A5 A6 A7 A8 A9 A10 : Type u) (Result : Type v)
      (f : A1 → A2 → A3 → A4 → A5 → A6 → A7 → A8 → A9 → A10 →
        Except Panic Result),
      (fromFnOnce10 f).func
        = some (fun (a1, a2, a3, a4, a5, a6, a7, a8, a9, a10) =>
          f a1 a2 a3 a4 a5 a6 a7 a8 a9 a10)) := by
  refine ⟨?_, ?_, ?_, ?_, ?_, ?_, ?_, ?_, ?_, ?_, ?_, ?_⟩
  · intro Args Result b g args h
    rw [h]
    rfl
  all_goals intros
  all_goals rfl

/-- Witness for C4: the first invocation on the freshly built `demoBox`
extracts its wrapped callable, runs it on the unit tuple and empties the
slot. -/
theorem slot_extraction_succeeds_on_first_call_witness :
    innerStep demoBox.func () = (demoF (), none) :=
  slot_extraction_succeeds_on_first_call.1 Unit Nat demoBox
    (fun _ => demoF ()) () rfl

/-- C5: if the slot is unexpectedly already empty when the inner wrapper is
invoked — in particular on a second invocation of the wrapper on the state
a first invocation left behind — the mechanism panics (the `unwrap` of
`None`) instead of returning a value-level error; the mechanism is shared
by every arity, whose argument tuple type is the `Args` parameter here. -/
theorem empty_slot_invocation_panics :
    ∀ (Args : Type u) (Result : Type v) (g : Args → Except Panic Result)
      (args args2 : Args),
      innerStep (none : Option (Args → Except Panic Result)) args2
          = (Except.error unwrapNonePanic, none) ∧
      innerStep (innerStep (some g) args).2 args2
          = (Except.error unwrapNonePanic, none) := by
  intros
  exact ⟨rfl, rfl⟩

/-- C6: a failure raised by the wrapped callable during its single
execution propagates unchanged through the box's call operation — the box
neither catches nor translates it — both for `call_tuple` on any box whose
slot holds the failing callable and, as in the crate's marker-message test,
for a boxed zero-argument callable; an always-failing (diverging) callable
is handled by the same rule. -/
theorem inner_failure_propagates_unchanged :
    (∀ (Args : Type u) (Result : Type v)
      (g : Args → Except Panic Result) (args : Args) (e : Panic),
      g args = Except.error e →
        (BoxFnOnce.mk (some g)).call_tuple args = Except.error e) ∧
    (∀ (Result : Type v) (f : Unit → Except Panic Result) (e : Panic),
      f () = Except.error e → (fromFnOnce0 f).call0 = Except.error e) := by
  constructor
  · intro Args Result g args e h
    exact h
  · intro Result f e h
    exact h

/-- Witness for C6: boxing the always-panicking `divergingF` and calling
the box propagates the panic with the exact marker message. -/
theorem inner_failure_propagates_unchanged_witness :
    (fromFnOnce0 divergingF).call0 = Except.error ⟨"inner diverging"⟩ :=
  inner_failure_propagates_unchanged.{0, 0}.2 Nat divergingF
    ⟨"inner diverging"⟩ rfl

/-- C8: the thread-transferable variant `SendBoxFnOnce` (spec-modelled, with
the same container and arity machinery 0..10) behaves identically to the
plain variant when called: for every callable satisfying the
thread-transferability capability required by its constructors, and every
matching argument list of each arity, the send box built from the callable
returns on `call` exactly what the plain box built from the same callable
returns. -/
theorem send_variant_call_agrees_with_plain :
    (∀ (Result : Type v) (f : Unit → Except Panic Result) (h : Sendable f),
      (sendFromFnOnce0 f h).call0 = (fromFnOnce0 f).call0) ∧
    (∀ (A1 : Type u) (Result : Type v) (f : A1 → Except Panic Result)
      (h : Sendable f) (a1 : A1),
      (sendFromFnOnce1 f h).call1 a1 = (fromFnOnce1 f).call1 a1) ∧
    (∀ (A1 A2 : Type u) (Result : Type v)
      (f : A1 → A2 → Except Panic Result) (h : Sendable f) (a1 : A1)
      (a2 : A2),
      (sendFromFnOnce2 f h).call2 a1 a2 = (fromFnOnce2 f).call2 a1 a2) ∧
    (∀ (A1 A2 A3 : Type u) (Result : Type v)
      (f : A1 → A2 → A3 → Except Panic Result) (h : Sendable f)
      (a1 : A1) (a2 : A2) (a3 : A3),
      (sendFromFnOnce3 f h).call3 a1 a2 a3
        = (fromFnOnce3 f).call3 a1 a2 a3) ∧
    (∀ (A1 A2 A3 A4 : Type u) (Result : Type v)
      (f : A1 → A2 → A3 → A4 → Except Panic Result) (h : Sendable f)
      (a1 : A1) (a2 : A2) (a3 : A3) (a4 : A4),
      (sendFromFnOnce4 f h).call4 a1 a2 a3 a4
        = (fromFnOnce4 f).call4 a1 a2 a3 a4) ∧
    (∀ (A1 A2 A3 A4 A5 : Type u) (Result : Type v)
      (f : A1 → A2 → A3 → A4 → A5 → Except Panic Result) (h : Sendable f)
      (a1 : A1) (a2 : A2) (a3 : A3) (a4 : A4) (a5 : A5),
      (sendFromFnOnce5 f h).call5 a1 a2 a3 a4 a5
        = (fromFnOnce5 f).call5 a1 a2 a3 a4 a5) ∧
    (∀ (A1 A2 A3 A4 A5 A6 : Type u) (Result : Type v)
      (f : A1 → A2 → A3 → A4 → A5 → A6 → Except Panic Result)
      (h : Sendable f)
      (a1 : A1) (a2 : A2) (a3 : A3) (a4 : A4) (a5 : A5) (a6 : A6),
      (sendFromFnOnce6 f h).call6 a1 a2 a3 a4 a5 a6
        = (fromFnOnce6 f).call6 a1 a2 a3 a4 a5 a6) ∧
    (∀ (A1 A2 A3 A4 A5 A6 A7 : Type u) (Result : Type v)
      (f : A1 → A2 → A3 → A4 → A5 → A6 → A7 → Except Panic Result)
      (h : Sendable f)
      (a1 : A1) (a2 : A2) (a3 : A3) (a4 : A4) (a5 : A5) (a6 : A6) (a7 : A7),
      (sendFromFnOnce7 f h).call7 a1 a2 a3 a4 a5 a6 a7
        = (fromFnOnce7 f).call7 a1 a2 a3 a4 a5 a6 a7) ∧
    (∀ (A1 A2 A3 A4 A5 A6 A7 A8 : Type u) (Result : Type v)
      (f : A1 → A2 → A3 → A4 → A5 → A6 → A7 → A8 → Except Panic Result)
      (h : Sendable f)
      (a1 : A1) (a2 : A2) (a3 : A3) (a4 : A4) (a5 : A5) (a6 : A6) (a7 : A7)
      (a8 : A8),
      (sendFromFnOnce8 f h).call8 a1 a2 a3 a4 a5 a6 a7 a8
        = (fromFnOnce8 f).call8 a1 a2 a3 a4 a5 a6 a7 a8) ∧
    (∀ (A1 A2 A3 A4 A5 A6 A7 A8 A9 : Type u) (Result : Type v)
      (f : A1 → A2 → A3 → A4 → A5 → A6 → A7 → A8 → A9 →
        Except Panic Result)
      (h : Sendable f)
      (a1 : A1) (a2 : A2) (a3 : A3) (a4 : A4) (a5 : A5) (a6 : A6) (a7 : A7)
      (a8 : A8) (a9 : A9),
      (sendFromFnOnce9 f h).call9 a1 a2 a3 a4 a5 a6 a7 a8 a9
        = (fromFnOnce9 f).call9 a1 a2 a3 a4 a5 a6 a7 a8 a9) ∧
    (∀ (A1 A2 A3 A4 A5 A6 A7 A8 A9 A10 : Type u) (Result : Type v)
      (f : A1 → A2 → A3 → A4 → A5 → A6 → A7 → A8 → A9 → A10 →
        Except Panic Result)
      (h : Sendable f)
      (a1 : A1) (a2 : A2) (a3 : A3) (a4 : A4) (a5 : A5) (a6 : A6) (a7 : A7)
      (a8 : A8) (a9 : A9) (a10 : A10),
      (sendFromFnOnce10 f h).call10 a1 a2 a3 a4 a5 a6 a7 a8 a9 a10
        = (fromFnOnce10 f).call10 a1 a2 a3 a4 a5 a6 a7 a8 a9 a10) := by
  refine ⟨?_, ?_, ?_, ?_, ?_, ?_, ?_, ?_, ?_, ?_, ?_⟩ <;> intros <;> rfl

/-- Witness for C8: the send box and the plain box built from the concrete
`demoF` agree on their arity-0 call. -/
theorem send_variant_call_agrees_with_plain_witness :
    (sendFromFnOnce0 demoF True.intro).call0 = (fromFnOnce0 demoF).call0 :=
  send_variant_call_agrees_with_plain.{0, 0}.1 Nat demoF True.intro

/-- C10: `BoxFnOnce::new` is an exact alias of `BoxFnOnce::from`: under any
`From` impl (in particular each of the per-arity instances declared above),
the box built by `new` is the very box built by `from`, so calling it gives
the same result on every argument tuple. -/
theorem new_is_alias_of_from :
    ∀ (F : Type w) (Args : Type u) (Result : Type v)
      [RustFrom F (BoxFnOnce Args Result)] (f : F) (args : Args),
      BoxFnOnce.new f = (RustFrom.fromFn f : BoxFnOnce Args Result) ∧
      (BoxFnOnce.new f).call_tuple args
        = (RustFrom.fromFn f : BoxFnOnce Args Result).call_tuple args := by
  intros
  exact ⟨rfl, rfl⟩

/-- Witness for C10 at the arity-0 instance and the concrete callable
`demoF`. -/
theorem new_is_alias_of_from_witness :
    BoxFnOnce.new demoF = (RustFrom.fromFn demoF : BoxFnOnce Unit Nat) ∧
    (BoxFnOnce.new demoF).call_tuple ()
      = (RustFrom.fromFn demoF : BoxFnOnce Unit Nat).call_tuple () :=
  new_is_alias_of_from (Unit → Except Panic Nat) Unit Nat demoF ()
